import Mathlib

/-!
Verification of the plugin-composition layer of `@planjs/react-cli`
(`packages/react-cli-service/src/services/PluginApi.ts`), as a shallow
embedding in Lean 4.

Modelling conventions:
* JavaScript values that can be `undefined`/`null` are embedded as `Option`.
* JavaScript numbers (IEEE doubles) are embedded as rationals `ℚ`; the
  `Number.isInteger` test becomes `q.den = 1` and the decimal rendering of an
  integer becomes `toString q.num`.
* Code that can throw is embedded as `Except String` carrying the thrown
  error message; a `try {...} catch` in the source becomes a `match` on the
  `Except` value.
* External collaborators of the core (the semantic-version comparator
  `semver.satisfies` with `includePrerelease: true`, `path.resolve`, the
  filesystem, the package-metadata loader `loadJSON` and the structural hash
  function `hash-sum`) are parameters of the embedding, as the specification
  treats them as external.
-/

namespace ReactCli

/-! ## Version guard (`PluginApi.assertVersion`, PluginApi.ts lines 26-43) -/

/-- The argument of `assertVersion`, typed `number | string` in the source.
`other` stands for any JavaScript value that is neither number nor string. -/
inductive RangeArg where
  | num (q : ℚ)
  | str (s : String)
  | other
deriving DecidableEq

/-- Message of the malformed-range error thrown at PluginApi.ts lines 29 and 34. -/
def invalidMsg : String := "Expected string or integer value."

/-- Message of the incompatible-version error thrown at PluginApi.ts lines 40-42. -/
def incompatibleMsg (range version : String) : String :=
  "Require @planjs/react-cli-service \"" ++ range ++
    "\", but was loaded with \"" ++ version ++ "\"."

/-- Lines 27-35 of `assertVersion`: an integer number `N` is rewritten to the
range string `^N.0.0-0`; a non-integer number, or a value that is neither
number nor string, raises the malformed-range error. -/
def normalizeRange : RangeArg → Except String String
  | .num q =>
      if q.den = 1 then .ok ("^" ++ toString q.num ++ ".0.0-0")
      else .error invalidMsg
  | .str s => .ok s
  | .other => .error invalidMsg

/-- `PluginApi.assertVersion`. `sat version range` embeds
`semver.satisfies(version, range, { includePrerelease: true })`; `version` is
`this.version`, the host package's version string. -/
def assertVersion (sat : String → String → Bool) (version : String)
    (range : RangeArg) : Except String Unit :=
  match normalizeRange range with
  | .error e => .error e
  | .ok r => if sat version r then .ok () else .error (incompatibleMsg r version)

/-! ## Capability registry (`registerCommand`, `chainWebpack`,
`configureWebpack`, `configureDevServer`, PluginApi.ts lines 86-129) -/

/-- One entry of `service.commands`: `\x7b fn, options: options || \x7d`
(PluginApi.ts line 91). The `options` field is always a concrete descriptor
(never null/undefined) because of the `|| \x7b\x7d` default. -/
structure Command (F : Type) where
  fn : F
  options : List (String × String)
deriving DecidableEq

/-- The slice of `Service` state that the registry methods touch: the command
table and the three ordered mutation-function lists. `F`, `C`, `R`, `D` are
the (opaque) types of command handlers, chain-mutation functions, raw
configuration contributions and dev-server hooks. -/
structure ServiceState (F C R D : Type) where
  commands : String → Option (Command F)
  webpackChainFns : List C
  webpackRawConfigFns : List R
  devServerConfigFns : List D

/-- `PluginApi.registerCommand` (lines 86-92):
`this.service.commands[name] = \x7b fn, options: options || \x7b\x7d \x7d`.
A null/undefined descriptor (`none`) is replaced by the empty descriptor. -/
def registerCommand {F C R D : Type} (s : ServiceState F C R D) (name : String)
    (options : Option (List (String × String))) (fn : F) : ServiceState F C R D :=
  { s with commands := fun n =>
      if n = name then some ⟨fn, options.getD []⟩ else s.commands n }

/-- `PluginApi.chainWebpack` (lines 101-103): `webpackChainFns.push(fn)`.
The function value is stored unapplied. -/
def chainWebpack {F C R D : Type} (s : ServiceState F C R D) (fn : C) :
    ServiceState F C R D :=
  { s with webpackChainFns := s.webpackChainFns ++ [fn] }

/-- `PluginApi.configureWebpack` (lines 115-119): `webpackRawConfigFns.push(fn)`. -/
def configureWebpack {F C R D : Type} (s : ServiceState F C R D) (fn : R) :
    ServiceState F C R D :=
  { s with webpackRawConfigFns := s.webpackRawConfigFns ++ [fn] }

/-- `PluginApi.configureDevServer` (lines 127-129): `devServerConfigFns.push(fn)`. -/
def configureDevServer {F C R D : Type} (s : ServiceState F C R D) (fn : D) :
    ServiceState F C R D :=
  { s with devServerConfigFns := s.devServerConfigFns ++ [fn] }

/-! ## Cache fingerprint generator (`getCacheIdentifier`, PluginApi.ts
lines 156-220) -/

/-- A JavaScript value as far as `getCacheIdentifier` inspects one: a function
(carrying its source text, as returned by `Function.prototype.toString`), a
string, or any other value (in particular `undefined`). -/
inductive JsVal where
  | vfunc (src : String)
  | vstr (s : String)
  | vundef
deriving DecidableEq

/-- Character-level semantics of the global regex replacement
`.replace(/\r\n?/g, '\n')`: scanning left to right, `\r\n` and a lone `\r`
are each replaced by `\n`. -/
def fmtChars : List Char → List Char
  | [] => []
  | [c] => [if c = '\r' then '\n' else c]
  | c :: d :: rest =>
      if c = '\r' then
        if d = '\n' then '\n' :: fmtChars rest
        else '\n' :: fmtChars (d :: rest)
      else c :: fmtChars (d :: rest)

/-- `s.replace(/\r\n?/g, '\n')` on a whole string. -/
def fmtReplace (s : String) : String := ⟨fmtChars s.data⟩

/-- The helper `fmtFunc` (PluginApi.ts lines 167-172): a function value is
serialized to its source text with line endings normalized; any other value
passes through unchanged. -/
def fmtFunc : JsVal → JsVal
  | .vfunc src => .vstr (fmtReplace src)
  | v => v

/-- The two user-facing configuration hooks read from
`this.service.userOptions` at lines 180-181. -/
structure UserOptions where
  chainWebpack : JsVal
  configureWebpack : JsVal
deriving DecidableEq

/-- The `configFiles` argument, typed `string[] | string` in the source. -/
inductive ConfigFilesArg where
  | str (s : String)
  | list (l : List String)
deriving DecidableEq

/-- The `Array.isArray` normalization at lines 194-196: a bare string is
wrapped in a singleton array. -/
def normalizeConfigFiles : ConfigFilesArg → List String
  | .str s => [s]
  | .list l => l

/-- The fixed trailing lockfile names appended at lines 197-201. -/
def lockFileNames : List String :=
  ["package-lock.json", "yarn.lock", "pnpm-lock.yaml"]

/-- The full file sequence hashed by `getCacheIdentifier`: the (normalized)
user-supplied entries followed by the conventional lockfile names. -/
def resolvedConfigFiles (arg : ConfigFilesArg) : List String :=
  normalizeConfigFiles arg ++ lockFileNames

/-- The variables bag assembled at lines 174-216 and hashed at line 218. -/
structure Variables where
  partialIdentifier : JsVal
  cliService : String
  env : Option String
  test : Bool
  config : List JsVal
  cacheLoader : Option String
  configFiles : List (Option String)
deriving DecidableEq

/-- The external collaborators and ambient state that `getCacheIdentifier`
reads. `resolvePath` embeds `path.resolve`; `context` is
`this.service.context` (the project root); `cacheLoader` is the fallible
`loadJSON('cache-loader/package.json', ...).version` lookup; `fsRead` is the
fallible `fs.readFileSync(..., 'utf-8')`; `hashSum` is the structural hash
function `hash-sum` applied to the variables bag. -/
structure CacheEnv where
  context : String
  resolvePath : String → String → String
  cliServiceVersion : String
  nodeEnv : Option String
  reactCliTest : Bool
  cacheLoader : Except String String
  fsExists : String → Bool
  fsRead : String → Except String String
  hashSum : Variables → String

/-- The inner helper `readConfig` on an already-resolved absolute path
(lines 203-211): a non-existent file yields `undefined`; a read failure is
swallowed and also yields `undefined`. -/
def readAbs (env : CacheEnv) (absolutePath : String) : Option String :=
  if env.fsExists absolutePath then
    match env.fsRead absolutePath with
    | .ok content => some content
    | .error _ => none
  else none

/-- `readConfig file` (lines 203-211): resolve `file` against the project
root, then read it best-effort. -/
def readConfig (env : CacheEnv) (file : String) : Option String :=
  readAbs env (env.resolvePath env.context file)

/-- The expression `content && content.replace(/\r\n?/g, '\n')` at line 215:
`undefined` stays `undefined`, the empty string short-circuits (it is falsy),
and any other content has its line endings normalized. -/
def andThenReplace : Option String → Option String
  | none => none
  | some content => if content = "" then some content else some (fmtReplace content)

/-- The complete variables bag of one `getCacheIdentifier` call
(lines 174-216). The `try/catch` around the `cache-loader` version lookup
(lines 185-192) becomes a `match`: a lookup failure contributes no value. -/
def cacheVariables (env : CacheEnv) (userOptions : UserOptions)
    (partialIdentifier : JsVal) (configFiles : ConfigFilesArg) : Variables :=
  { partialIdentifier := partialIdentifier
    cliService := env.cliServiceVersion
    env := env.nodeEnv
    test := env.reactCliTest
    config := [fmtFunc userOptions.chainWebpack, fmtFunc userOptions.configureWebpack]
    cacheLoader :=
      match env.cacheLoader with
      | .ok v => some v
      | .error _ => none
    configFiles :=
      (resolvedConfigFiles configFiles).map fun file =>
        andThenReplace (readConfig env file) }

/-- `PluginApi.getCacheIdentifier` (lines 159-220): returns the cache
directory `node_modules/.cache/<id>` resolved against the project root, and
the structural hash of the variables bag. -/
def getCacheIdentifier (env : CacheEnv) (userOptions : UserOptions) (id : String)
    (partialIdentifier : JsVal) (configFiles : ConfigFilesArg) :
    String × String :=
  (env.resolvePath env.context ("node_modules/.cache/" ++ id),
   env.hashSum (cacheVariables env userOptions partialIdentifier configFiles))

/-! ## Auxiliary notions used to state the claims -/

/-- Line-ending normalization of a value, used to say that two user option
values are "the same up to carriage-return/line-feed conventions": function
sources are compared after `fmtReplace`, other values verbatim. -/
def JsVal.normalize : JsVal → JsVal
  | .vfunc src => .vfunc (fmtReplace src)
  | v => v

/-- Two raw file-read outcomes agree up to line-ending style: both fail, or
both succeed with contents that normalize to the same line-feed-only text. -/
def readEquiv : Except String String → Except String String → Prop
  | .ok s1, .ok s2 => fmtReplace s1 = fmtReplace s2
  | .error _, .error _ => True
  | _, _ => False

/-- `sub` occurs contiguously inside `s` (substring containment, stated on
the underlying character lists). -/
def containsSub (s sub : String) : Prop :=
  ∃ a b : List Char, s.data = a ++ sub.data ++ b

/-- A concrete environment used to instantiate the universally quantified
theorems below on a closed input. -/
def sampleEnv : CacheEnv where
  context := "/proj"
  resolvePath := fun a b => a ++ "/" ++ b
  cliServiceVersion := "1.0.0"
  nodeEnv := some "production"
  reactCliTest := false
  cacheLoader := Except.error "module not found"
  fsExists := fun _ => true
  fsRead := fun _ => Except.error "EACCES"
  hashSum := fun v => toString v.configFiles.length

/-- A concrete environment in which the optional `cache-loader` metadata is
unavailable and no file exists. -/
def absentEnv : CacheEnv :=
  { sampleEnv with fsExists := fun _ => false }

/-- A concrete empty service state over numeric handler/mutation tags. -/
def emptyService : ServiceState ℕ ℕ ℕ ℕ :=
  { commands := fun _ => none
    webpackChainFns := []
    webpackRawConfigFns := []
    devServerConfigFns := [] }

/-! ## Helper lemmas -/

/-- The regex replacement returns an empty character list only on the empty
list: every input character produces exactly one output character or merges
a two-character `\r\n` pair into one. -/
theorem fmtChars_eq_nil_iff (l : List Char) : fmtChars l = [] ↔ l = [] := by
  cases l with
  | nil => simp [fmtChars]
  | cons c t =>
    cases t with
    | nil => simp [fmtChars]
    | cons d rest =>
      simp only [fmtChars]
      split_ifs <;> simp

/-- Line-ending normalization maps only the empty string to the empty string. -/
theorem fmtReplace_eq_empty_iff (s : String) : fmtReplace s = "" ↔ s = "" := by
  cases s with
  | mk data =>
    constructor
    · intro h
      have h2 : fmtChars data = [] := congrArg String.data h
      have h3 : data = [] := (fmtChars_eq_nil_iff data).mp h2
      simp [h3]
    · intro h
      have h3 : data = [] := congrArg String.data h
      simp [fmtReplace, h3, fmtChars]

/-- The `content && content.replace(...)` step respects line-ending
equivalence of the raw contents. -/
theorem andThenReplace_congr {s1 s2 : String}
    (h : fmtReplace s1 = fmtReplace s2) :
    andThenReplace (some s1) = andThenReplace (some s2) := by
  by_cases h1 : s1 = ""
  · have h2 : s2 = "" := by
      rw [← fmtReplace_eq_empty_iff, ← h, fmtReplace_eq_empty_iff]
      exact h1
    simp [andThenReplace, h1, h2]
  · by_cases h2 : s2 = ""
    · have h1' : s1 = "" := by
        rw [← fmtReplace_eq_empty_iff, h, fmtReplace_eq_empty_iff]
        exact h2
      exact absurd h1' h1
    · simp [andThenReplace, h1, h2, h]

/-- `fmtFunc` agrees on values equal up to line-ending style. -/
theorem fmtFunc_congr {v v' : JsVal} (h : v.normalize = v'.normalize) :
    fmtFunc v = fmtFunc v' := by
  cases v <;> cases v' <;> simp_all [JsVal.normalize, fmtFunc]

/-! ## Claim theorems -/

/-- Claim C2: for every semantic-version range string `R` and host version
`V`, `assertVersion R` returns normally exactly when `V` satisfies `R` under
the pre-release-inclusive comparator (`semver.satisfies` with
`includePrerelease: true`, embedded as the abstract comparator `sat`), and
throws otherwise. -/
theorem assertVersion_ok_iff_satisfies (sat : String → String → Bool)
    (V R : String) :
    assertVersion sat V (.str R) = .ok () ↔ sat V R = true := by
  cases h : sat V R <;> simp [assertVersion, normalizeRange, h]

/-- Claim C3: for every integer `N`, `assertVersion N` has exactly the same
behaviour (same return or same thrown error) as `assertVersion "^N.0.0-0"`. -/
theorem assertVersion_int_eq_caret_range (sat : String → String → Bool)
    (V : String) (n : ℤ) :
    assertVersion sat V (.num (n : ℚ)) =
      assertVersion sat V (.str ("^" ++ toString n ++ ".0.0-0")) := by
  simp [assertVersion, normalizeRange, Rat.den_intCast, Rat.num_intCast]

/-- Claim C6: a non-integer number, and any argument that is neither a number
nor a string, always makes `assertVersion` throw the malformed-range error —
never the incompatible-version error and never a normal return. -/
theorem assertVersion_invalid_inputs (sat : String → String → Bool) (V : String) :
    (∀ q : ℚ, q.den ≠ 1 → assertVersion sat V (.num q) = .error invalidMsg)
    ∧ assertVersion sat V .other = .error invalidMsg := by
  constructor
  · intro q hq
    simp [assertVersion, normalizeRange, hq]
  · rfl

/-- Witness for C6 at the concrete non-integer `1/2`. -/
theorem assertVersion_invalid_inputs_witness :
    (mkRat 1 2).den ≠ 1
    ∧ assertVersion (fun _ _ => true) "1.0.0" (.num (mkRat 1 2)) =
        .error invalidMsg :=
  ⟨by decide,
   (assertVersion_invalid_inputs (fun _ _ => true) "1.0.0").1 (mkRat 1 2) (by decide)⟩

/-- Claim C9: when `assertVersion` throws the incompatible-version error, the
error's message contains both the (normalized) required range and the actual
host version string as substrings. -/
theorem assertVersion_mismatch_message (sat : String → String → Bool)
    (V : String) (arg : RangeArg) (r : String)
    (hnorm : normalizeRange arg = .ok r) (hsat : sat V r = false) :
    assertVersion sat V arg = .error (incompatibleMsg r V)
    ∧ containsSub (incompatibleMsg r V) r
    ∧ containsSub (incompatibleMsg r V) V := by
  refine ⟨?_, ?_, ?_⟩
  · simp [assertVersion, hnorm, hsat]
  · exact ⟨("Require @planjs/react-cli-service \"").data,
      ("\", but was loaded with \"" ++ V ++ "\".").data,
      by simp [incompatibleMsg]⟩
  · exact ⟨("Require @planjs/react-cli-service \"" ++ r ++ "\", but was loaded with \"").data,
      ("\".").data,
      by simp [incompatibleMsg]⟩

/-- Witness for C9 at a concrete failing comparator, range and version. -/
theorem assertVersion_mismatch_message_witness :
    assertVersion (fun _ _ => false) "4.1.0" (.str "^3.0.0-0") =
      .error (incompatibleMsg "^3.0.0-0" "4.1.0")
    ∧ containsSub (incompatibleMsg "^3.0.0-0" "4.1.0") "^3.0.0-0"
    ∧ containsSub (incompatibleMsg "^3.0.0-0" "4.1.0") "4.1.0" :=
  assertVersion_mismatch_message (fun _ _ => false) "4.1.0" (.str "^3.0.0-0")
    "^3.0.0-0" rfl rfl

/-- Claim C5: `registerCommand` is last-writer-wins on the command name.
After registering `(name, o1, f1)` and then `(name, o2, f2)`, the command
table maps `name` to the second handler and descriptor; no error is raised
(the embedding is a total state transformer), and every other name is
untouched. -/
theorem registerCommand_last_writer_wins (F C R D : Type)
    (s : ServiceState F C R D) (name : String)
    (o1 o2 : Option (List (String × String))) (f1 f2 : F) :
    (registerCommand (registerCommand s name o1 f1) name o2 f2).commands name =
      some ⟨f2, o2.getD []⟩
    ∧ ∀ n, n ≠ name →
        (registerCommand (registerCommand s name o1 f1) name o2 f2).commands n =
          s.commands n := by
  constructor
  · simp [registerCommand]
  · intro n hn
    simp [registerCommand, hn]

/-- Witness for C5: registering `build` twice keeps the second handler and
descriptor and leaves `lint` untouched. -/
theorem registerCommand_last_writer_wins_witness :
    (registerCommand (registerCommand emptyService "build"
        (some [("mode", "build mode")]) 1) "build"
        (some [("mode", "serve mode")]) 2).commands "build" =
      some ⟨2, [("mode", "serve mode")]⟩
    ∧ (registerCommand (registerCommand emptyService "build"
        (some [("mode", "build mode")]) 1) "build"
        (some [("mode", "serve mode")]) 2).commands "lint" =
      emptyService.commands "lint" :=
  ⟨(registerCommand_last_writer_wins ℕ ℕ ℕ ℕ emptyService "build"
      (some [("mode", "build mode")]) (some [("mode", "serve mode")]) 1 2).1,
   (registerCommand_last_writer_wins ℕ ℕ ℕ ℕ emptyService "build"
      (some [("mode", "build mode")]) (some [("mode", "serve mode")]) 1 2).2
      "lint" (by decide)⟩

/-- Claim C8: `chainWebpack`, `configureWebpack` and `configureDevServer`
are append-only and lazy: each appends its argument (the function value
itself, stored unapplied) to the tail of its own list and leaves the command
table, the other two lists — and hence every previously appended entry —
unchanged. -/
theorem mutationHooks_append_only (F C R D : Type) (s : ServiceState F C R D)
    (c : C) (r : R) (d : D) :
    ((chainWebpack s c).webpackChainFns = s.webpackChainFns ++ [c]
      ∧ (chainWebpack s c).commands = s.commands
      ∧ (chainWebpack s c).webpackRawConfigFns = s.webpackRawConfigFns
      ∧ (chainWebpack s c).devServerConfigFns = s.devServerConfigFns)
    ∧ ((configureWebpack s r).webpackRawConfigFns = s.webpackRawConfigFns ++ [r]
      ∧ (configureWebpack s r).commands = s.commands
      ∧ (configureWebpack s r).webpackChainFns = s.webpackChainFns
      ∧ (configureWebpack s r).devServerConfigFns = s.devServerConfigFns)
    ∧ ((configureDevServer s d).devServerConfigFns = s.devServerConfigFns ++ [d]
      ∧ (configureDevServer s d).commands = s.commands
      ∧ (configureDevServer s d).webpackChainFns = s.webpackChainFns
      ∧ (configureDevServer s d).webpackRawConfigFns = s.webpackRawConfigFns) :=
  ⟨⟨rfl, rfl, rfl, rfl⟩, ⟨rfl, rfl, rfl, rfl⟩, ⟨rfl, rfl, rfl, rfl⟩⟩

/-- Claim C10: a null/undefined options descriptor is stored as the empty
descriptor (`options || \x7b\x7d`), and in general the stored `options`
field is always the concrete descriptor `o.getD []` — never null. -/
theorem registerCommand_default_options (F C R D : Type)
    (s : ServiceState F C R D) (name : String) (f : F) :
    (registerCommand s name none f).commands name = some ⟨f, []⟩
    ∧ ∀ o, (registerCommand s name o f).commands name = some ⟨f, o.getD []⟩ := by
  constructor
  · simp [registerCommand]
  · intro o
    simp [registerCommand]

/-- Claim C7: `getCacheIdentifier` wraps a bare-string `configFiles` argument
in a singleton list, appends exactly `package-lock.json`, `yarn.lock`,
`pnpm-lock.yaml` in that order after the user-supplied entries (whose order
is kept), and the hashed entries are obtained by resolving every file of the
resulting sequence against the project root. -/
theorem configFiles_normalized_and_resolved :
    (∀ s, resolvedConfigFiles (.str s) =
        s :: ["package-lock.json", "yarn.lock", "pnpm-lock.yaml"])
    ∧ (∀ l, resolvedConfigFiles (.list l) =
        l ++ ["package-lock.json", "yarn.lock", "pnpm-lock.yaml"])
    ∧ (∀ (env : CacheEnv) (uo : UserOptions) (pid : JsVal)
        (files : ConfigFilesArg),
        (cacheVariables env uo pid files).configFiles =
          (resolvedConfigFiles files).map
            (fun f => andThenReplace (readAbs env (env.resolvePath env.context f)))) :=
  ⟨fun _ => rfl, fun _ => rfl, fun _ _ _ _ => rfl⟩

/-- Claim C4: `getCacheIdentifier` never fails due to missing optional
inputs. It always returns the `(cacheDirectory, cacheIdentifier)` pair built
from the variables bag; a failed `cache-loader` metadata lookup contributes
no value; a file that does not exist at its resolved path, or whose read
fails, contributes the absent marker (`none`) instead of propagating the
error. -/
theorem getCacheIdentifier_resilient (env : CacheEnv) (uo : UserOptions)
    (id : String) (pid : JsVal) (files : ConfigFilesArg) :
    getCacheIdentifier env uo id pid files =
      (env.resolvePath env.context ("node_modules/.cache/" ++ id),
       env.hashSum (cacheVariables env uo pid files))
    ∧ (∀ e, env.cacheLoader = .error e →
        (cacheVariables env uo pid files).cacheLoader = none)
    ∧ (∀ f, env.fsExists (env.resolvePath env.context f) = false →
        readConfig env f = none)
    ∧ (∀ f e, env.fsRead (env.resolvePath env.context f) = .error e →
        readConfig env f = none)
    ∧ (cacheVariables env uo pid files).configFiles =
        (resolvedConfigFiles files).map
          (fun f => andThenReplace (readConfig env f)) := by
  refine ⟨rfl, ?_, ?_, ?_, rfl⟩
  · intro e he
    simp [cacheVariables, he]
  · intro f hf
    simp [readConfig, readAbs, hf]
  · intro f e he
    simp only [readConfig, readAbs, he]
    split <;> rfl

/-- Witness for C4: in an environment where the `cache-loader` lookup fails
and no file exists, the bag still carries the absent markers. -/
theorem getCacheIdentifier_resilient_witness :
    (cacheVariables absentEnv ⟨.vundef, .vundef⟩ .vundef
        (.str "vite.config.js")).cacheLoader = none
    ∧ readConfig absentEnv "vite.config.js" = none :=
  ⟨(getCacheIdentifier_resilient absentEnv ⟨.vundef, .vundef⟩ "babel" .vundef
      (.str "vite.config.js")).2.1 "module not found" rfl,
   (getCacheIdentifier_resilient absentEnv ⟨.vundef, .vundef⟩ "babel" .vundef
      (.str "vite.config.js")).2.2.1 "vite.config.js" rfl⟩

/-- Claim C1: the cache identifier is a deterministic function of the inputs
up to line-ending style, and the normalized mutation-function sources are
hashed. First part: with the same id, partial identifier, config file list,
environment and lookups, two `getCacheIdentifier` calls whose raw file reads
agree up to carriage-return/line-feed conventions and whose user
`chainWebpack`/`configureWebpack` values agree up to the same normalization
return the same `cacheIdentifier` string. Second part: changing the source
text of either user configuration function (beyond line-ending style, which
the first part shows is identified) changes the hashed variables bag. -/
theorem getCacheIdentifier_fingerprint_stability :
    (∀ (env : CacheEnv) (r r' : String → Except String String)
        (uo uo' : UserOptions) (id : String) (pid : JsVal)
        (files : ConfigFilesArg),
        (∀ p, readEquiv (r p) (r' p)) →
        uo.chainWebpack.normalize = uo'.chainWebpack.normalize →
        uo.configureWebpack.normalize = uo'.configureWebpack.normalize →
        getCacheIdentifier { env with fsRead := r } uo id pid files =
          getCacheIdentifier { env with fsRead := r' } uo' id pid files)
    ∧ (∀ (env : CacheEnv) (uo : UserOptions) (pid : JsVal)
        (files : ConfigFilesArg) (src src' : String),
        fmtReplace src ≠ fmtReplace src' →
        cacheVariables env { uo with chainWebpack := .vfunc src } pid files ≠
          cacheVariables env { uo with chainWebpack := .vfunc src' } pid files
        ∧ cacheVariables env { uo with configureWebpack := .vfunc src } pid files ≠
          cacheVariables env { uo with configureWebpack := .vfunc src' } pid files) := by
  constructor
  · intro env r r' uo uo' id pid files hr hc hw
    have hfile : ∀ f,
        andThenReplace (readConfig { env with fsRead := r } f) =
          andThenReplace (readConfig { env with fsRead := r' } f) := by
      intro f
      have hp := hr (env.resolvePath env.context f)
      simp only [readConfig, readAbs]
      cases hex : env.fsExists (env.resolvePath env.context f) with
      | false => simp [hex]
      | true =>
        simp only [hex, if_true]
        cases e1 : r (env.resolvePath env.context f) with
        | error m1 =>
          cases e2 : r' (env.resolvePath env.context f) with
          | error m2 => rfl
          | ok s2 => simp [readEquiv, e1, e2] at hp
        | ok s1 =>
          cases e2 : r' (env.resolvePath env.context f) with
          | error m2 => simp [readEquiv, e1, e2] at hp
          | ok s2 =>
            simp only [readEquiv, e1, e2] at hp
            exact andThenReplace_congr hp
    have hbag : cacheVariables { env with fsRead := r } uo pid files =
        cacheVariables { env with fsRead := r' } uo' pid files := by
      unfold cacheVariables
      rw [fmtFunc_congr hc, fmtFunc_congr hw, funext hfile]
    simp [getCacheIdentifier, hbag]
  · intro env uo pid files src src' hne
    constructor
    · intro h
      apply hne
      have h2 := congrArg Variables.config h
      simp [cacheVariables, fmtFunc] at h2
      exact h2
    · intro h
      apply hne
      have h2 := congrArg Variables.config h
      simp [cacheVariables, fmtFunc] at h2
      exact h2

/-- Witness for C1: two runs over file contents `"a\r\nb"` vs `"a\nb"` and a
user chain function whose source differs only in its line ending produce the
same result, while changing the function body changes the bag. -/
theorem getCacheIdentifier_fingerprint_stability_witness :
    getCacheIdentifier { sampleEnv with fsRead := fun _ => Except.ok "a\r\nb" }
        ⟨.vfunc "() => 0\r\n", .vundef⟩ "babel-loader" .vundef (.list []) =
      getCacheIdentifier { sampleEnv with fsRead := fun _ => Except.ok "a\nb" }
        ⟨.vfunc "() => 0\n", .vundef⟩ "babel-loader" .vundef (.list [])
    ∧ cacheVariables sampleEnv ⟨.vfunc "() => 0", .vundef⟩ .vundef (.list []) ≠
        cacheVariables sampleEnv ⟨.vfunc "() => 1", .vundef⟩ .vundef (.list []) :=
  ⟨getCacheIdentifier_fingerprint_stability.1 sampleEnv
      (fun _ => Except.ok "a\r\nb") (fun _ => Except.ok "a\nb")
      ⟨.vfunc "() => 0\r\n", .vundef⟩ ⟨.vfunc "() => 0\n", .vundef⟩
      "babel-loader" .vundef (.list [])
      (fun _ => (by decide : fmtReplace "a\r\nb" = fmtReplace "a\nb"))
      (by decide) rfl,
   (getCacheIdentifier_fingerprint_stability.2 sampleEnv ⟨.vundef, .vundef⟩
      .vundef (.list []) "() => 0" "() => 1" (by decide)).1⟩

end ReactCli
